import Mathlib

/-!
Shallow embedding of the weather-data pipeline
(`src/load_data.py` and `src/calculate_statistics.py`).

Modelling conventions:
* Python/SQL strings are Lean `String`s (in this toolchain a `String` is a
  list of characters, so all string operations below are structural and
  kernel-computable).
* Nullable SQL columns are `Option` values.  SQL `GROUP BY` treats two
  NULLs as equal (modelled by grouping on the `Option` value itself),
  while the SQL comparison operator `=` used in join conditions is
  NULL-unsafe: `NULL = x` is never true (modelled by `sqlEqOpt`).
* `datetime` timestamps are modelled as `Nat` counters (`datetime.utcnow`
  is monotonically non-decreasing; only ordering and equality matter).
* SQL REAL arithmetic (`/ 10.0`, `AVG`, `SUM`, `ROUND(x, 2)`) is modelled
  by exact rational arithmetic over `ℚ`.
* Python exceptions (`IndexError` from `columns[i]`, `ValueError` from
  `int(...)`) are modelled with `Except` / `Option`.
-/

/-- Characters removed by Python's `str.strip()` (ASCII whitespace). -/
def isPySpace (c : Char) : Bool :=
  c == ' ' || c == '\t' || c == '\n' || c == '\r' || c == '\x0b' || c == '\x0c'

/-- Python `line.strip()`: drop leading and trailing whitespace. -/
def pyStrip (s : String) : String :=
  ⟨((s.data.dropWhile isPySpace).reverse.dropWhile isPySpace).reverse⟩

/-- Helper for `pySplitTab`: accumulates the current field (reversed). -/
def splitTabAux : List Char → List Char → List String
  | [], acc => [⟨acc.reverse⟩]
  | c :: cs, acc =>
    if c = '\t' then ⟨acc.reverse⟩ :: splitTabAux cs []
    else splitTabAux cs (c :: acc)

/-- Python `s.split('\t')`: split on every tab, keeping empty fields
(`''.split('\t') == ['']`). -/
def pySplitTab (s : String) : List String :=
  splitTabAux s.data []

/-- Helper for `pythonInt?`: parse a digit run that may contain single
underscores between digits (Python's integer-literal rule), accumulating
the value.  The first character has already been checked to be a digit. -/
def digitsAux : List Char → Nat → Option Nat
  | [], acc => some acc
  | c :: rest, acc =>
    if c.isDigit then digitsAux rest (acc * 10 + (c.toNat - 48))
    else if c = '_' then
      match rest with
      | [] => none
      | r :: _ => if r.isDigit then digitsAux rest acc else none
    else none

/-- Helper for `pythonInt?`: value of a non-empty digit run that must
start with a digit. -/
def digitsVal? : List Char → Option Nat
  | [] => none
  | c :: rest => if c.isDigit then digitsAux (c :: rest) 0 else none

/-- Python `int(s)`: optional surrounding whitespace, optional sign, then
a non-empty run of (ASCII) digits with optional single underscores
between digits.  Returns `none` where Python raises `ValueError`. -/
def pythonInt? (s : String) : Option Int :=
  match (pyStrip s).data with
  | '+' :: rest => (digitsVal? rest).map (fun n => (n : Int))
  | '-' :: rest => (digitsVal? rest).map (fun n => -(n : Int))
  | t => (digitsVal? t).map (fun n => (n : Int))

/-- Prefix of `cs` that precedes its last `'.'`. -/
def takeBeforeLastDot (cs : List Char) : List Char :=
  (((cs.reverse.dropWhile (fun c => c ≠ '.')).drop 1)).reverse

/-- Python `os.path.splitext(f)[0]` for a bare filename: everything
before the last dot, except that a name whose pre-dot part is all dots
(such as `.txt`) has no extension. -/
def splitext_stem (f : String) : String :=
  let cs := f.data
  if cs.contains '.' then
    let pre := takeBeforeLastDot cs
    if pre.all (fun c => c = '.') then f else ⟨pre⟩
  else f

/-- Python `s.endswith(suffix)`. -/
def strEndsWith (s suffix : String) : Bool :=
  List.isSuffixOf suffix.data s.data

/-- SQL `=` on two nullable columns: true only when both are non-NULL and
equal (`NULL = x` is not true, so NULL rows never satisfy a join). -/
def sqlEqOpt {α : Type} [DecidableEq α] (a b : Option α) : Bool :=
  match a, b with
  | some x, some y => decide (x = y)
  | _, _ => false

/-- SQL `MAX(tie)` over the rows of `l` whose (NULL-safe) group key is
`k`; `0` if the group is empty (`Nat` timestamps/ids start at `0`). -/
def maxOf {α κ : Type} [DecidableEq κ] (tie : α → Nat) (key : α → κ)
    (l : List α) (k : κ) : Nat :=
  ((l.filter (fun s => decide (key s = k))).map tie).foldr max 0

namespace LoadData

/-- Exceptions a single line of `load_data_from_files` can raise:
`indexError` from `columns[i]` on a short line, `valueError` from
`int(...)` on a non-integer field. -/
inductive ParseError where
  | indexError : ParseError
  | valueError : ParseError
deriving DecidableEq, Repr

/-- The `WeatherRecord` model: `date` is text, the three numeric fields
are nullable integers, `weather_station_id` is text,
`ingestion_timestamp` is the insert-time timestamp. -/
structure WeatherRecord where
  date : String
  max_temp : Option Int
  min_temp : Option Int
  precipitation : Option Int
  weather_station_id : String
  ingestion_timestamp : Nat
deriving DecidableEq, Repr

/-- `columns[i]` with Python semantics: `IndexError` when out of range. -/
def getCol (cols : List String) (i : Nat) : Except ParseError String :=
  match cols[i]? with
  | some s => .ok s
  | none => .error .indexError

/-- `int(columns[i]) if columns[i] != '-9999' else None`: the sentinel
test compares the raw *string* to `'-9999'`; any other text is handed to
`int(...)`, which raises `ValueError` on non-integer text. -/
def parseField (s : String) : Except ParseError (Option Int) :=
  if s = "-9999" then .ok none
  else
    match pythonInt? s with
    | some n => .ok (some n)
    | none => .error .valueError

/-- One iteration of the inner loop of `load_data_from_files`: strip and
tab-split the line, read the four columns in source order, and build the
`WeatherRecord`. -/
def parse_line (weather_station_id : String) (ts : Nat) (line : String) :
    Except ParseError WeatherRecord :=
  let columns := pySplitTab (pyStrip line)
  match getCol columns 0 with
  | .error e => .error e
  | .ok date =>
    match getCol columns 1 with
    | .error e => .error e
    | .ok s1 =>
      match parseField s1 with
      | .error e => .error e
      | .ok max_temp =>
        match getCol columns 2 with
        | .error e => .error e
        | .ok s2 =>
          match parseField s2 with
          | .error e => .error e
          | .ok min_temp =>
            match getCol columns 3 with
            | .error e => .error e
            | .ok s3 =>
              match parseField s3 with
              | .error e => .error e
              | .ok precipitation =>
                .ok { date := date, max_temp := max_temp,
                      min_temp := min_temp, precipitation := precipitation,
                      weather_station_id := weather_station_id,
                      ingestion_timestamp := ts }

/-- The per-file loop body: parse every line of one file in order,
stamping consecutive timestamps; the first bad line raises, discarding
the whole (uncommitted) batch. -/
def parse_file (station : String) : Nat → List String →
    Except ParseError (List WeatherRecord × Nat)
  | ts, [] => .ok ([], ts)
  | ts, l :: ls =>
    match parse_line station ts l with
    | .error e => .error e
    | .ok r =>
      match parse_file station (ts + 1) ls with
      | .error e => .error e
      | .ok (rs, ts') => .ok (r :: rs, ts')

/-- `load_data_from_files`: iterate over the directory listing, skip
non-`.txt` files, parse each file and commit its batch at file end
(`db.session.commit()` once per file).  An exception inside a file
propagates: that file's batch is never committed and no later file is
processed.  Returns the committed store, the timestamp counter, and the
escaped exception if any. -/
def load_data_from_files :
    List (String × List String) → List WeatherRecord → Nat →
    List WeatherRecord × Nat × Option ParseError
  | [], store, ts => (store, ts, none)
  | (filename, lines) :: rest, store, ts =>
    if strEndsWith filename ".txt" then
      match parse_file (splitext_stem filename) ts lines with
      | .ok (rs, ts') => load_data_from_files rest (store ++ rs) ts'
      | .error e => (store, ts, some e)
    else
      load_data_from_files rest store ts

/-- The `GROUP BY` key of the dedup subquery (NULL-safe: SQL `GROUP BY`
puts all NULLs of a column in one group). -/
abbrev ObsKey := String × Option Int × Option Int × Option Int × String

/-- Key of a record for the dedup subquery. -/
def obsKey (o : WeatherRecord) : ObsKey :=
  (o.date, o.max_temp, o.min_temp, o.precipitation, o.weather_station_id)

/-- `MAX(ingestion_timestamp)` over a key's group. -/
def maxTsFor : List WeatherRecord → ObsKey → Nat :=
  maxOf (fun o => o.ingestion_timestamp) obsKey

/-- The dedup subquery: one row per distinct key with the group's
maximum ingestion timestamp. -/
def obsGroupRows (store : List WeatherRecord) : List (ObsKey × Nat) :=
  ((store.map obsKey).dedup).map (fun k => (k, maxTsFor store k))

/-- The join condition of the duplicate query, column for column as in
the source: five NULL-unsafe equalities plus
`ingestion_timestamp != max_ingestion_timestamp`. -/
def obsJoinCond (r : WeatherRecord) (g : ObsKey × Nat) : Bool :=
  decide (r.date = g.1.1) &&
  sqlEqOpt r.max_temp g.1.2.1 &&
  sqlEqOpt r.min_temp g.1.2.2.1 &&
  sqlEqOpt r.precipitation g.1.2.2.2.1 &&
  decide (r.weather_station_id = g.1.2.2.2.2) &&
  decide (r.ingestion_timestamp ≠ g.2)

/-- A record is in the `duplicates` result set iff it joins some
subquery group row. -/
def obsIsDuplicate (store : List WeatherRecord) (r : WeatherRecord) : Bool :=
  (obsGroupRows store).any (obsJoinCond r)

/-- `remove_duplicates` of `load_data.py`: delete every record in the
`duplicates` result set; returns the surviving store and the deleted
count. -/
def remove_duplicates (store : List WeatherRecord) :
    List WeatherRecord × Nat :=
  (store.filter (fun r => !obsIsDuplicate store r),
   (store.filter (fun r => obsIsDuplicate store r)).length)

end LoadData

namespace CalculateStatistics

/-- The values of a `WeatherStats` row as `calculate_statistics` builds
it (the surrogate `id` primary key is assigned later, at insert time). -/
structure StatRow where
  year : Int
  weather_station_id : String
  avg_max_temp : Option ℚ
  avg_min_temp : Option ℚ
  total_precipitation : Option ℚ
deriving DecidableEq, Repr

/-- A persisted `WeatherStats` row, carrying its surrogate `id`. -/
structure WeatherStats where
  id : Nat
  year : Int
  weather_station_id : String
  avg_max_temp : Option ℚ
  avg_min_temp : Option ℚ
  total_precipitation : Option ℚ
deriving DecidableEq, Repr

/-- SQL `substr(date, 1, 4)`: the first four characters. -/
def substr_1_4 (s : String) : String := ⟨s.data.take 4⟩

/-- The aggregation's `GROUP BY` key: `(substr(date,1,4),
weather_station_id)`. -/
def recKey (o : LoadData.WeatherRecord) : String × String :=
  (substr_1_4 o.date, o.weather_station_id)

/-- The distinct group keys of the aggregation query. -/
def groupKeys (store : List LoadData.WeatherRecord) : List (String × String) :=
  (store.map recKey).dedup

/-- The records of one aggregation group. -/
def groupMembers (store : List LoadData.WeatherRecord) (k : String × String) :
    List LoadData.WeatherRecord :=
  store.filter (fun o => decide (recKey o = k))

/-- The non-NULL `max_temp` values of a group (SQL aggregates skip
NULLs). -/
def maxVals (store : List LoadData.WeatherRecord) (k : String × String) :
    List Int :=
  (groupMembers store k).filterMap (fun o => o.max_temp)

/-- The non-NULL `min_temp` values of a group. -/
def minVals (store : List LoadData.WeatherRecord) (k : String × String) :
    List Int :=
  (groupMembers store k).filterMap (fun o => o.min_temp)

/-- The non-NULL `precipitation` values of a group. -/
def precVals (store : List LoadData.WeatherRecord) (k : String × String) :
    List Int :=
  (groupMembers store k).filterMap (fun o => o.precipitation)

/-- SQL `ROUND(q, 2)`, over exact rationals. -/
def round2 (q : ℚ) : ℚ := ((round (100 * q) : ℤ) : ℚ) / 100

/-- `round(avg(x / 10.0), 2)` as computed by the query: the average of
the per-row quotients over the non-NULL values; SQL `AVG` of an empty
(all-NULL) input is NULL. -/
def aggAvg (vs : List Int) : Option ℚ :=
  if vs = [] then none
  else some (round2 ((vs.map (fun x : Int => (x : ℚ) / 10)).sum / (vs.length : ℚ)))

/-- `round(sum(x / 100.0), 2)` as computed by the query; SQL `SUM` of an
empty (all-NULL) input is NULL. -/
def aggSum (vs : List Int) : Option ℚ :=
  if vs = [] then none
  else some (round2 ((vs.map (fun x : Int => (x : ℚ) / 100)).sum))

/-- The loop of `calculate_statistics` over the grouped query result:
`int(record.year)` may raise `ValueError` (modelled as `none`), else one
`WeatherStats` row per group is built. -/
def buildStats (store : List LoadData.WeatherRecord) :
    List (String × String) → Option (List StatRow)
  | [] => some []
  | k :: ks =>
    match pythonInt? k.1 with
    | none => none
    | some y =>
      match buildStats store ks with
      | none => none
      | some rest =>
        some ({ year := y, weather_station_id := k.2,
                avg_max_temp := aggAvg (maxVals store k),
                avg_min_temp := aggAvg (minVals store k),
                total_precipitation := aggSum (precVals store k) } :: rest)

/-- `calculate_statistics` of `calculate_statistics.py`: one emitted
`WeatherStats` row per `(substr(date,1,4), weather_station_id)` group;
`none` when `int(record.year)` raises. -/
def calculate_statistics (store : List LoadData.WeatherRecord) :
    Option (List StatRow) :=
  buildStats store (groupKeys store)

/-- The spec's formula for the averages: `round(mean(non-null values) /
10.0, 2)`, NULL when every member is NULL.  Stated from the spec's
words, to be compared with `aggAvg`. -/
def specAvg (vs : List Int) : Option ℚ :=
  if vs = [] then none
  else some (round2 (((vs.map (fun x : Int => (x : ℚ))).sum / (vs.length : ℚ)) / 10))

/-- The spec's formula for the precipitation total: `round(sum(non-null
values) / 100.0, 2)`, NULL when every member is NULL.  Stated from the
spec's words, to be compared with `aggSum`. -/
def specSum (vs : List Int) : Option ℚ :=
  if vs = [] then none
  else some (round2 ((vs.map (fun x : Int => (x : ℚ))).sum / 100))

/-- The `GROUP BY` key of the stats dedup subquery: the full value tuple
(NULL-safe, as `GROUP BY` groups NULLs together). -/
abbrev StatsKey := Int × String × Option ℚ × Option ℚ × Option ℚ

/-- Key of a stats row for the dedup subquery. -/
def statsKey (s : WeatherStats) : StatsKey :=
  (s.year, s.weather_station_id, s.avg_max_temp, s.avg_min_temp,
   s.total_precipitation)

/-- `MAX(id)` over a key's group. -/
def maxIdFor : List WeatherStats → StatsKey → Nat :=
  maxOf (fun s => s.id) statsKey

/-- The stats dedup subquery: one row per distinct value tuple with the
group's maximum id. -/
def statsGroupRows (store : List WeatherStats) : List (StatsKey × Nat) :=
  ((store.map statsKey).dedup).map (fun k => (k, maxIdFor store k))

/-- The join condition of the stats duplicate query, column for column
as in the source: NULL-unsafe equalities on the five value columns plus
`id != max_id`. -/
def statsJoinCond (r : WeatherStats) (g : StatsKey × Nat) : Bool :=
  decide (r.year = g.1.1) &&
  decide (r.weather_station_id = g.1.2.1) &&
  sqlEqOpt r.avg_max_temp g.1.2.2.1 &&
  sqlEqOpt r.avg_min_temp g.1.2.2.2.1 &&
  sqlEqOpt r.total_precipitation g.1.2.2.2.2 &&
  decide (r.id ≠ g.2)

/-- A stats row is in the `duplicates` result set iff it joins some
subquery group row. -/
def statsIsDuplicate (store : List WeatherStats) (r : WeatherStats) : Bool :=
  (statsGroupRows store).any (statsJoinCond r)

/-- `remove_duplicates` of `calculate_statistics.py`: delete every row
in the `duplicates` result set; returns the surviving store and the
deleted count. -/
def remove_duplicates (store : List WeatherStats) :
    List WeatherStats × Nat :=
  (store.filter (fun r => !statsIsDuplicate store r),
   (store.filter (fun r => statsIsDuplicate store r)).length)

end CalculateStatistics

/-- The sentinel rule the parser actually implements, per field: the
stored value is NULL exactly when the raw field text is the literal
string `-9999`; any other text that `int(...)` accepts is stored as its
parsed integer (even when that integer equals -9999). -/
def sentinelOrInt (s : String) (v : Option Int) : Prop :=
  (s = "-9999" ∧ v = none) ∨
  (s ≠ "-9999" ∧ ∃ n : Int, pythonInt? s = some n ∧ v = some n)

/-! ### Helper lemmas -/

lemma le_foldr_max {a : Nat} : ∀ {l : List Nat}, a ∈ l → a ≤ l.foldr max 0 := by
  intro l h
  induction l with
  | nil => cases h
  | cons b t ih =>
    rcases List.mem_cons.mp h with rfl | h2
    · exact le_max_left _ _
    · exact le_trans (ih h2) (le_max_right _ _)

lemma foldr_max_le {M : Nat} : ∀ {l : List Nat}, (∀ a ∈ l, a ≤ M) →
    l.foldr max 0 ≤ M := by
  intro l h
  induction l with
  | nil => exact Nat.zero_le M
  | cons b t ih =>
    exact max_le (h b (List.mem_cons_self b t))
      (ih fun a ha => h a (List.mem_cons_of_mem _ ha))

lemma sqlEqOpt_eq_true_iff {α : Type} [DecidableEq α] {a b : Option α} :
    sqlEqOpt a b = true ↔ ∃ x, a = some x ∧ b = some x := by
  cases a <;> cases b <;> simp [sqlEqOpt]
  exact eq_comm

/-- The NULL-unsafe join of the raw dedup query characterised: a record
is in the `duplicates` set iff all three nullable fields are non-NULL
and its timestamp is not the maximum of its group. -/
lemma obsIsDuplicate_iff (store : List LoadData.WeatherRecord)
    (r : LoadData.WeatherRecord) (hr : r ∈ store) :
    LoadData.obsIsDuplicate store r = true ↔
      (((∃ a, r.max_temp = some a) ∧ (∃ b, r.min_temp = some b) ∧
        (∃ c, r.precipitation = some c)) ∧
       r.ingestion_timestamp ≠ LoadData.maxTsFor store (LoadData.obsKey r)) := by
  constructor
  · intro h
    rw [LoadData.obsIsDuplicate, List.any_eq_true] at h
    obtain ⟨g, hg, hcond⟩ := h
    rw [LoadData.obsGroupRows, List.mem_map] at hg
    obtain ⟨⟨k1, k2, k3, k4, k5⟩, hk, rfl⟩ := hg
    simp only [LoadData.obsJoinCond, Bool.and_eq_true, decide_eq_true_eq,
      sqlEqOpt_eq_true_iff] at hcond
    obtain ⟨⟨⟨⟨⟨hd, a, ha, hk2⟩, b, hb, hk3⟩, c, hc, hk4⟩, hs⟩, hts⟩ := hcond
    have hkey : LoadData.obsKey r = (k1, k2, k3, k4, k5) := by
      simp only [LoadData.obsKey, hd, hs, ha, hb, hc, hk2, hk3, hk4]
    refine ⟨⟨⟨a, ha⟩, ⟨b, hb⟩, ⟨c, hc⟩⟩, ?_⟩
    rw [hkey]
    exact hts
  · rintro ⟨⟨⟨a, ha⟩, ⟨b, hb⟩, ⟨c, hc⟩⟩, hts⟩
    rw [LoadData.obsIsDuplicate, List.any_eq_true]
    refine ⟨(LoadData.obsKey r, LoadData.maxTsFor store (LoadData.obsKey r)),
      ?_, ?_⟩
    · rw [LoadData.obsGroupRows]
      exact List.mem_map_of_mem _
        (List.mem_dedup.mpr (List.mem_map_of_mem _ hr))
    · simp only [LoadData.obsJoinCond, Bool.and_eq_true, decide_eq_true_eq,
        sqlEqOpt_eq_true_iff]
      exact ⟨⟨⟨⟨⟨rfl, ⟨a, ha, ha⟩⟩, ⟨b, hb, hb⟩⟩, ⟨c, hc, hc⟩⟩, rfl⟩, hts⟩

/-- The stats dedup join characterised: a row is in the `duplicates` set
iff all three nullable value columns are non-NULL and its id is not the
maximum of its (full value tuple) group. -/
lemma statsIsDuplicate_iff (store : List CalculateStatistics.WeatherStats)
    (r : CalculateStatistics.WeatherStats) (hr : r ∈ store) :
    CalculateStatistics.statsIsDuplicate store r = true ↔
      (((∃ a, r.avg_max_temp = some a) ∧ (∃ b, r.avg_min_temp = some b) ∧
        (∃ c, r.total_precipitation = some c)) ∧
       r.id ≠ CalculateStatistics.maxIdFor store
         (CalculateStatistics.statsKey r)) := by
  constructor
  · intro h
    rw [CalculateStatistics.statsIsDuplicate, List.any_eq_true] at h
    obtain ⟨g, hg, hcond⟩ := h
    rw [CalculateStatistics.statsGroupRows, List.mem_map] at hg
    obtain ⟨⟨k1, k2, k3, k4, k5⟩, hk, rfl⟩ := hg
    simp only [CalculateStatistics.statsJoinCond, Bool.and_eq_true,
      decide_eq_true_eq, sqlEqOpt_eq_true_iff] at hcond
    obtain ⟨⟨⟨⟨⟨hy, hs⟩, a, ha, hk3⟩, b, hb, hk4⟩, c, hc, hk5⟩, hid⟩ := hcond
    have hkey : CalculateStatistics.statsKey r = (k1, k2, k3, k4, k5) := by
      simp only [CalculateStatistics.statsKey, hy, hs, ha, hb, hc, hk3, hk4, hk5]
    refine ⟨⟨⟨a, ha⟩, ⟨b, hb⟩, ⟨c, hc⟩⟩, ?_⟩
    rw [hkey]
    exact hid
  · rintro ⟨⟨⟨a, ha⟩, ⟨b, hb⟩, ⟨c, hc⟩⟩, hid⟩
    rw [CalculateStatistics.statsIsDuplicate, List.any_eq_true]
    refine ⟨(CalculateStatistics.statsKey r,
      CalculateStatistics.maxIdFor store (CalculateStatistics.statsKey r)),
      ?_, ?_⟩
    · rw [CalculateStatistics.statsGroupRows]
      exact List.mem_map_of_mem _
        (List.mem_dedup.mpr (List.mem_map_of_mem _ hr))
    · simp only [CalculateStatistics.statsJoinCond, Bool.and_eq_true,
        decide_eq_true_eq, sqlEqOpt_eq_true_iff]
      exact ⟨⟨⟨⟨⟨rfl, rfl⟩, ⟨a, ha, ha⟩⟩, ⟨b, hb, hb⟩⟩, ⟨c, hc, hc⟩⟩, hid⟩

/-- Both deduplicators have the shape "delete `r` iff `r`'s nullable
fields are non-NULL and `r`'s tie-break value is not its group's
maximum".  Any dedup of that shape leaves a store it cannot shrink
further: no survivor is a duplicate of the surviving store. -/
lemma dedup_stable {α κ : Type} [DecidableEq κ]
    (dup : List α → α → Bool) (tie : α → Nat) (key : α → κ) (ok : α → Prop)
    (hdup : ∀ (l : List α) (r : α), r ∈ l →
      (dup l r = true ↔ (ok r ∧ tie r ≠ maxOf tie key l (key r))))
    (store : List α) :
    ∀ r ∈ store.filter (fun x => !dup store x),
      dup (store.filter (fun x => !dup store x)) r = false := by
  intro r hrA
  obtain ⟨hrs, hnd⟩ := List.mem_filter.mp hrA
  have hdup0 : dup store r = false := by
    cases h : dup store r
    · rfl
    · rw [h] at hnd; simp at hnd
  have hnRHS : ¬ (ok r ∧ tie r ≠ maxOf tie key store (key r)) := by
    rw [← hdup store r hrs, hdup0]
    simp
  by_cases hok : ok r
  · have htie : tie r = maxOf tie key store (key r) := by
      by_contra hne
      exact hnRHS ⟨hok, hne⟩
    have hMeq : maxOf tie key (store.filter (fun x => !dup store x)) (key r) =
        maxOf tie key store (key r) := by
      apply le_antisymm
      · apply foldr_max_le
        intro a ha
        obtain ⟨x, hx, rfl⟩ := List.mem_map.mp ha
        obtain ⟨hxA, hxk⟩ := List.mem_filter.mp hx
        have hxs : x ∈ store := (List.mem_filter.mp hxA).1
        exact le_foldr_max (List.mem_map_of_mem _ (List.mem_filter.mpr ⟨hxs, hxk⟩))
      · rw [← htie]
        exact le_foldr_max (List.mem_map_of_mem _
          (List.mem_filter.mpr ⟨hrA, by simp⟩))
    cases h : dup (store.filter (fun x => !dup store x)) r
    · rfl
    · exfalso
      obtain ⟨-, hne⟩ := (hdup _ r hrA).mp h
      exact hne (by rw [hMeq, ← htie])
  · cases h : dup (store.filter (fun x => !dup store x)) r
    · rfl
    · exact absurd ((hdup _ r hrA).mp h).1 hok


/-! ### Claim theorems -/

/-- C1 (amended): for a group of Observations identical on
(date, max_temp, min_temp, precipitation, weather_station_id) whose
max_temp, min_temp and precipitation are all non-null, the raw
deduplicator retains exactly the members whose ingestion_timestamp
equals the group maximum — in particular the unique latest member when
timestamps are distinct — and deletes every other member; a
single-member group is untouched.  (Groups with a null field are left
entirely untouched, see the counterexample and C9.) -/
theorem raw_dedup_keeps_max_of_nonnull_group
    (store : List LoadData.WeatherRecord) (r : LoadData.WeatherRecord)
    (hr : r ∈ store)
    (h1 : ∃ a, r.max_temp = some a) (h2 : ∃ b, r.min_temp = some b)
    (h3 : ∃ c, r.precipitation = some c) :
    r ∈ (LoadData.remove_duplicates store).1 ↔
      r.ingestion_timestamp = LoadData.maxTsFor store (LoadData.obsKey r) := by
  rw [LoadData.remove_duplicates]
  simp only [List.mem_filter, Bool.not_eq_true']
  constructor
  · rintro ⟨-, hnd⟩
    by_contra hne
    have := (obsIsDuplicate_iff store r hr).mpr ⟨⟨h1, h2, h3⟩, hne⟩
    rw [hnd] at this
    cases this
  · intro hts
    refine ⟨hr, ?_⟩
    cases h : LoadData.obsIsDuplicate store r
    · rfl
    · obtain ⟨-, hne⟩ := (obsIsDuplicate_iff store r hr).mp h
      exact absurd hts hne

/-- Witness for C1: a two-member non-null duplicate group; the member
with timestamp 1 (the maximum) is retained. -/
theorem raw_dedup_keeps_max_of_nonnull_group_witness :
    (⟨"20200101", some 5, some 1, some 2, "S", 1⟩ : LoadData.WeatherRecord) ∈
      (LoadData.remove_duplicates
        [⟨"20200101", some 5, some 1, some 2, "S", 0⟩,
         ⟨"20200101", some 5, some 1, some 2, "S", 1⟩]).1 ↔
      (1 : Nat) = LoadData.maxTsFor
        [⟨"20200101", some 5, some 1, some 2, "S", 0⟩,
         ⟨"20200101", some 5, some 1, some 2, "S", 1⟩]
        (LoadData.obsKey ⟨"20200101", some 5, some 1, some 2, "S", 1⟩) :=
  raw_dedup_keeps_max_of_nonnull_group _ _ (by decide)
    ⟨5, rfl⟩ ⟨1, rfl⟩ ⟨2, rfl⟩

/-- Counterexample for C1 as stated: two Observations identical on all
business fields, with null max_temp and timestamps 0 < 1.  The claim
says only the timestamp-1 member survives; the code deletes nothing
(the NULL-unsafe join never matches a NULL field), so the timestamp-0
member survives and the deleted count is 0. -/
theorem raw_dedup_null_group_untouched_cex :
    (⟨"20200101", none, some 1, some 2, "S", 0⟩ : LoadData.WeatherRecord) ∈
      (LoadData.remove_duplicates
        [⟨"20200101", none, some 1, some 2, "S", 0⟩,
         ⟨"20200101", none, some 1, some 2, "S", 1⟩]).1 ∧
    (LoadData.remove_duplicates
        [⟨"20200101", none, some 1, some 2, "S", 0⟩,
         ⟨"20200101", none, some 1, some 2, "S", 1⟩]).2 = 0 := by
  decide

/-- C9: an Observation with a null max_temp, min_temp or precipitation
is never deleted by the raw deduplicator — the deletion join's equality
conditions are never satisfied by null fields — even when a business-
field-identical record with a later timestamp exists. -/
theorem raw_dedup_never_deletes_null_fields
    (store : List LoadData.WeatherRecord) (r : LoadData.WeatherRecord)
    (hr : r ∈ store)
    (h : r.max_temp = none ∨ r.min_temp = none ∨ r.precipitation = none) :
    r ∈ (LoadData.remove_duplicates store).1 := by
  rw [LoadData.remove_duplicates]
  simp only [List.mem_filter, Bool.not_eq_true']
  refine ⟨hr, ?_⟩
  cases hd : LoadData.obsIsDuplicate store r
  · rfl
  · obtain ⟨⟨⟨a, ha⟩, ⟨b, hb⟩, ⟨c, hc⟩⟩, -⟩ := (obsIsDuplicate_iff store r hr).mp hd
    rcases h with h | h | h
    · rw [h] at ha; cases ha
    · rw [h] at hb; cases hb
    · rw [h] at hc; cases hc

/-- Witness for C9: the null-field record with timestamp 0 survives even
though an identical record with timestamp 1 is present. -/
theorem raw_dedup_never_deletes_null_fields_witness :
    (⟨"20200101", none, some 1, some 2, "S", 0⟩ : LoadData.WeatherRecord) ∈
      (LoadData.remove_duplicates
        [⟨"20200101", none, some 1, some 2, "S", 0⟩,
         ⟨"20200101", none, some 1, some 2, "S", 1⟩]).1 :=
  raw_dedup_never_deletes_null_fields _ _ (by decide) (Or.inl rfl)

/-- C7: running the raw deduplicator twice in a row with no intervening
ingestion deletes zero records on the second run, and likewise for the
stats deduplicator with no intervening aggregation, for every starting
store state. -/
theorem remove_duplicates_idempotent :
    (∀ store : List LoadData.WeatherRecord,
      (LoadData.remove_duplicates (LoadData.remove_duplicates store).1).2 = 0) ∧
    (∀ store : List CalculateStatistics.WeatherStats,
      (CalculateStatistics.remove_duplicates
        (CalculateStatistics.remove_duplicates store).1).2 = 0) := by
  constructor
  · intro store
    rw [LoadData.remove_duplicates, LoadData.remove_duplicates]
    simp only [List.length_eq_zero, List.filter_eq_nil_iff]
    intro r hr
    have := dedup_stable LoadData.obsIsDuplicate
      (fun o => o.ingestion_timestamp) LoadData.obsKey
      (fun o => (∃ a, o.max_temp = some a) ∧ (∃ b, o.min_temp = some b) ∧
        (∃ c, o.precipitation = some c))
      (fun l r hrl => obsIsDuplicate_iff l r hrl) store r hr
    simp [this]
  · intro store
    rw [CalculateStatistics.remove_duplicates,
      CalculateStatistics.remove_duplicates]
    simp only [List.length_eq_zero, List.filter_eq_nil_iff]
    intro r hr
    have := dedup_stable CalculateStatistics.statsIsDuplicate
      (fun s => s.id) CalculateStatistics.statsKey
      (fun s => (∃ a, s.avg_max_temp = some a) ∧
        (∃ b, s.avg_min_temp = some b) ∧ (∃ c, s.total_precipitation = some c))
      (fun l r hrl => statsIsDuplicate_iff l r hrl) store r hr
    simp [this]

/-- C3 (amended): within a group of YearlyStat rows identical on the
full value tuple (year, weather_station_id, avg_max_temp, avg_min_temp,
total_precipitation) whose three value fields are all non-null, the
stats deduplicator retains exactly the rows whose id equals the group's
maximum surrogate id (the unique such row, ids being unique) and deletes
the rest; a row with a null value field is never deleted (so rows for
the same (year, station) with differing values are all retained, each
being alone in its own full-tuple group). -/
theorem stats_dedup_keeps_max_id
    (store : List CalculateStatistics.WeatherStats)
    (r : CalculateStatistics.WeatherStats) (hr : r ∈ store) :
    (((∃ a, r.avg_max_temp = some a) ∧ (∃ b, r.avg_min_temp = some b) ∧
      (∃ c, r.total_precipitation = some c)) →
      (r ∈ (CalculateStatistics.remove_duplicates store).1 ↔
        r.id = CalculateStatistics.maxIdFor store
          (CalculateStatistics.statsKey r))) ∧
    ((r.avg_max_temp = none ∨ r.avg_min_temp = none ∨
      r.total_precipitation = none) →
      r ∈ (CalculateStatistics.remove_duplicates store).1) := by
  constructor
  · intro hsome
    rw [CalculateStatistics.remove_duplicates]
    simp only [List.mem_filter, Bool.not_eq_true']
    constructor
    · rintro ⟨-, hnd⟩
      by_contra hne
      have := (statsIsDuplicate_iff store r hr).mpr ⟨hsome, hne⟩
      rw [hnd] at this
      cases this
    · intro hid
      refine ⟨hr, ?_⟩
      cases h : CalculateStatistics.statsIsDuplicate store r
      · rfl
      · obtain ⟨-, hne⟩ := (statsIsDuplicate_iff store r hr).mp h
        exact absurd hid hne
  · intro h
    rw [CalculateStatistics.remove_duplicates]
    simp only [List.mem_filter, Bool.not_eq_true']
    refine ⟨hr, ?_⟩
    cases hd : CalculateStatistics.statsIsDuplicate store r
    · rfl
    · obtain ⟨⟨⟨a, ha⟩, ⟨b, hb⟩, ⟨c, hc⟩⟩, -⟩ :=
        (statsIsDuplicate_iff store r hr).mp hd
      rcases h with h | h | h
      · rw [h] at ha; cases ha
      · rw [h] at hb; cases hb
      · rw [h] at hc; cases hc

/-- Witness for C3: in a two-row non-null duplicate group with ids 1 and
2, the row with id 2 (the maximum) is retained. -/
theorem stats_dedup_keeps_max_id_witness :
    ((⟨2, 2020, "S", some 1, some 1, some 1⟩ :
        CalculateStatistics.WeatherStats) ∈
      (CalculateStatistics.remove_duplicates
        [⟨1, 2020, "S", some 1, some 1, some 1⟩,
         ⟨2, 2020, "S", some 1, some 1, some 1⟩]).1 ↔
      (2 : Nat) = CalculateStatistics.maxIdFor
        [⟨1, 2020, "S", some 1, some 1, some 1⟩,
         ⟨2, 2020, "S", some 1, some 1, some 1⟩]
        (CalculateStatistics.statsKey ⟨2, 2020, "S", some 1, some 1, some 1⟩)) :=
  (stats_dedup_keeps_max_id
    [⟨1, 2020, "S", some 1, some 1, some 1⟩,
     ⟨2, 2020, "S", some 1, some 1, some 1⟩]
    ⟨2, 2020, "S", some 1, some 1, some 1⟩
    (by decide)).1 ⟨⟨1, rfl⟩, ⟨1, rfl⟩, ⟨1, rfl⟩⟩

/-- Counterexample for C3 as stated: two YearlyStat rows identical on
the full value tuple but with a null avg_max_temp, ids 1 < 2.  The claim
says only the id-2 row survives; the code deletes nothing (the
NULL-unsafe join never matches a NULL column), so the id-1 row survives
and the deleted count is 0. -/
theorem stats_dedup_null_group_cex :
    (⟨1, 2020, "S", none, some 1, some 1⟩ :
        CalculateStatistics.WeatherStats) ∈
      (CalculateStatistics.remove_duplicates
        [⟨1, 2020, "S", none, some 1, some 1⟩,
         ⟨2, 2020, "S", none, some 1, some 1⟩]).1 ∧
    (CalculateStatistics.remove_duplicates
        [⟨1, 2020, "S", none, some 1, some 1⟩,
         ⟨2, 2020, "S", none, some 1, some 1⟩]).2 = 0 := by
  decide

/-- C4 (amended): after the stats deduplicator runs, at most one
YearlyStat row exists for each full value tuple whose value fields are
all non-null, provided surrogate ids are unique; rows for the same
(year, weather_station_id) whose value tuples differ, or whose value
fields are null, may coexist. -/
theorem stats_dedup_at_most_one_per_value_tuple
    (store : List CalculateStatistics.WeatherStats)
    (hids : store.Pairwise (fun a b => a.id ≠ b.id))
    (r s : CalculateStatistics.WeatherStats)
    (hr : r ∈ (CalculateStatistics.remove_duplicates store).1)
    (hs : s ∈ (CalculateStatistics.remove_duplicates store).1)
    (hk : CalculateStatistics.statsKey r = CalculateStatistics.statsKey s)
    (h1 : ∃ a, r.avg_max_temp = some a) (h2 : ∃ b, r.avg_min_temp = some b)
    (h3 : ∃ c, r.total_precipitation = some c) :
    r = s := by
  have hrs : r ∈ store := (List.mem_filter.mp hr).1
  have hss : s ∈ store := (List.mem_filter.mp hs).1
  have h1s : ∃ a, s.avg_max_temp = some a := by
    have := congrArg (fun t : CalculateStatistics.StatsKey => t.2.2.1) hk
    simp only [CalculateStatistics.statsKey] at this
    rw [← this]; exact h1
  have h2s : ∃ b, s.avg_min_temp = some b := by
    have := congrArg (fun t : CalculateStatistics.StatsKey => t.2.2.2.1) hk
    simp only [CalculateStatistics.statsKey] at this
    rw [← this]; exact h2
  have h3s : ∃ c, s.total_precipitation = some c := by
    have := congrArg (fun t : CalculateStatistics.StatsKey => t.2.2.2.2) hk
    simp only [CalculateStatistics.statsKey] at this
    rw [← this]; exact h3
  have hrid : r.id = CalculateStatistics.maxIdFor store
      (CalculateStatistics.statsKey r) :=
    ((stats_dedup_keeps_max_id store r hrs).1 ⟨h1, h2, h3⟩).mp hr
  have hsid : s.id = CalculateStatistics.maxIdFor store
      (CalculateStatistics.statsKey s) :=
    ((stats_dedup_keeps_max_id store s hss).1 ⟨h1s, h2s, h3s⟩).mp hs
  have hideq : r.id = s.id := by rw [hrid, hsid, hk]
  by_contra hne
  exact (List.Pairwise.forall (fun _ _ h => Ne.symm h) hids hrs hss hne) hideq

/-- Witness for C4: the hypotheses are satisfiable — a two-row non-null
duplicate group with distinct ids; applying the theorem to the surviving
row (twice) yields its reflexivity. -/
theorem stats_dedup_at_most_one_per_value_tuple_witness :
    (⟨2, 2020, "S", some 1, some 1, some 1⟩ :
        CalculateStatistics.WeatherStats) =
      ⟨2, 2020, "S", some 1, some 1, some 1⟩ :=
  stats_dedup_at_most_one_per_value_tuple
    [⟨1, 2020, "S", some 1, some 1, some 1⟩,
     ⟨2, 2020, "S", some 1, some 1, some 1⟩]
    (by simp) _ _ (by decide) (by decide) rfl ⟨1, rfl⟩ ⟨1, rfl⟩ ⟨1, rfl⟩

/-- Counterexample for C4 as stated: two rows for the same
(year, weather_station_id) = (2020, "S") whose computed values differ
both survive the stats deduplicator, so more than one YearlyStat row for
that pair exists afterwards. -/
theorem stats_dedup_same_year_station_cex :
    (⟨1, 2020, "S", some 1, some 1, some 1⟩ :
        CalculateStatistics.WeatherStats) ∈
      (CalculateStatistics.remove_duplicates
        [⟨1, 2020, "S", some 1, some 1, some 1⟩,
         ⟨2, 2020, "S", some 2, some 1, some 1⟩]).1 ∧
    (⟨2, 2020, "S", some 2, some 1, some 1⟩ :
        CalculateStatistics.WeatherStats) ∈
      (CalculateStatistics.remove_duplicates
        [⟨1, 2020, "S", some 1, some 1, some 1⟩,
         ⟨2, 2020, "S", some 2, some 1, some 1⟩]).1 ∧
    (⟨1, 2020, "S", some 1, some 1, some 1⟩ :
        CalculateStatistics.WeatherStats) ≠
      ⟨2, 2020, "S", some 2, some 1, some 1⟩ := by
  decide

lemma parseField_of_sentinelOrInt {s : String} {v : Option Int}
    (h : sentinelOrInt s v) : LoadData.parseField s = .ok v := by
  rcases h with ⟨hs, rfl⟩ | ⟨hne, n, hn, rfl⟩
  · rw [hs]; rfl
  · simp [LoadData.parseField, hne, hn]

/-- C5 (amended): for every input line with exactly 4 tab-separated
fields, the parser stores null for each numeric field whose raw text is
exactly the literal string -9999, and stores the parsed integer itself
for every other field text accepted by int() — even when that integer
equals -9999; the date field is kept as the raw first field and the
station id is the supplied one (the filename stem at the call site). -/
theorem parse_line_sentinel_literal (st : String) (ts : Nat)
    (line d a b c : String) (va vb vc : Option Int)
    (h : pySplitTab (pyStrip line) = [d, a, b, c])
    (ha : sentinelOrInt a va) (hb : sentinelOrInt b vb)
    (hc : sentinelOrInt c vc) :
    LoadData.parse_line st ts line = .ok ⟨d, va, vb, vc, st, ts⟩ := by
  have ha' := parseField_of_sentinelOrInt ha
  have hb' := parseField_of_sentinelOrInt hb
  have hc' := parseField_of_sentinelOrInt hc
  simp [LoadData.parse_line, h, LoadData.getCol, ha', hb', hc']

/-- Witness for C5: the line `20200101\t100\t-9999\t0` parses with a
null precipitation (sentinel) and literal integers elsewhere. -/
theorem parse_line_sentinel_literal_witness :
    LoadData.parse_line "USW00094728" 0 "20200101\t100\t-9999\t0" =
      .ok ⟨"20200101", some 100, none, some 0, "USW00094728", 0⟩ :=
  parse_line_sentinel_literal "USW00094728" 0
    "20200101\t100\t-9999\t0" "20200101" "100" "-9999" "0"
    (some 100) none (some 0) (by decide)
    (Or.inr ⟨by decide, 100, by decide, rfl⟩)
    (Or.inl ⟨rfl, rfl⟩)
    (Or.inr ⟨by decide, 0, by decide, rfl⟩)

/-- Counterexample for C5 as stated: the field text `-09999` parses to
the integer -9999, so the claim requires null to be stored; the code
compares the raw string to `-9999`, does not match, and stores the
integer -9999 itself. -/
theorem parse_line_sentinel_value_cex :
    pythonInt? "-09999" = some (-9999) ∧
    LoadData.parse_line "S" 0 "20200101\t-09999\t1\t2" =
      .ok ⟨"20200101", some (-9999), some 1, some 2, "S", 0⟩ := by
  constructor
  · decide
  · rfl

/-- C6: a line with fewer than 4 tab-separated fields, or a line whose
numeric field (column 1, 2 or 3) is neither the literal sentinel string
nor text accepted by int(), makes the parser fail with a parse error
(IndexError or ValueError raised inside the parsing code) and produce no
Observation. -/
theorem parse_line_malformed_errors (st : String) (ts : Nat) (line : String) :
    ((pySplitTab (pyStrip line)).length < 4 →
      ∃ e, LoadData.parse_line st ts line = .error e) ∧
    (∀ i, i ∈ ([1, 2, 3] : List Nat) → ∀ s,
      (pySplitTab (pyStrip line))[i]? = some s → s ≠ "-9999" →
      pythonInt? s = none →
      ∃ e, LoadData.parse_line st ts line = .error e) := by
  rcases hc : pySplitTab (pyStrip line) with - | ⟨d, - | ⟨a, - | ⟨b, - | ⟨c, rest⟩⟩⟩⟩
  · exact ⟨fun _ => ⟨.indexError, by simp [LoadData.parse_line, hc, LoadData.getCol]⟩,
      fun i hi s hs => by simp at hs⟩
  · refine ⟨fun _ => ⟨.indexError, by simp [LoadData.parse_line, hc, LoadData.getCol]⟩,
      fun i hi s hs => ?_⟩
    rcases show i = 1 ∨ i = 2 ∨ i = 3 by simpa using hi with rfl | rfl | rfl <;>
      simp at hs
  · refine ⟨fun _ => ?_, fun i hi s hs hne hnone => ?_⟩
    · cases hpa : LoadData.parseField a with
      | error e => exact ⟨e, by simp [LoadData.parse_line, hc, LoadData.getCol, hpa]⟩
      | ok v =>
        exact ⟨.indexError, by simp [LoadData.parse_line, hc, LoadData.getCol, hpa]⟩
    · rcases show i = 1 ∨ i = 2 ∨ i = 3 by simpa using hi with rfl | rfl | rfl
      · simp only [List.getElem?_cons_succ, List.getElem?_cons_zero,
          Option.some.injEq] at hs
        subst hs
        have hpa : LoadData.parseField a = .error .valueError := by
          simp [LoadData.parseField, hne, hnone]
        exact ⟨.valueError, by simp [LoadData.parse_line, hc, LoadData.getCol, hpa]⟩
      · simp at hs
      · simp at hs
  · refine ⟨fun _ => ?_, fun i hi s hs hne hnone => ?_⟩
    · cases hpa : LoadData.parseField a with
      | error e => exact ⟨e, by simp [LoadData.parse_line, hc, LoadData.getCol, hpa]⟩
      | ok v =>
        cases hpb : LoadData.parseField b with
        | error e =>
          exact ⟨e, by simp [LoadData.parse_line, hc, LoadData.getCol, hpa, hpb]⟩
        | ok w =>
          exact ⟨.indexError,
            by simp [LoadData.parse_line, hc, LoadData.getCol, hpa, hpb]⟩
    · rcases show i = 1 ∨ i = 2 ∨ i = 3 by simpa using hi with rfl | rfl | rfl
      · simp only [List.getElem?_cons_succ, List.getElem?_cons_zero,
          Option.some.injEq] at hs
        subst hs
        have hpa : LoadData.parseField a = .error .valueError := by
          simp [LoadData.parseField, hne, hnone]
        exact ⟨.valueError, by simp [LoadData.parse_line, hc, LoadData.getCol, hpa]⟩
      · simp only [List.getElem?_cons_succ, List.getElem?_cons_zero,
          Option.some.injEq] at hs
        subst hs
        have hpb : LoadData.parseField b = .error .valueError := by
          simp [LoadData.parseField, hne, hnone]
        cases hpa : LoadData.parseField a with
        | error e =>
          exact ⟨e, by simp [LoadData.parse_line, hc, LoadData.getCol, hpa]⟩
        | ok v =>
          exact ⟨.valueError,
            by simp [LoadData.parse_line, hc, LoadData.getCol, hpa, hpb]⟩
      · simp at hs
  · refine ⟨fun hlen => ?_, fun i hi s hs hne hnone => ?_⟩
    · simp at hlen
      omega
    · rcases show i = 1 ∨ i = 2 ∨ i = 3 by simpa using hi with rfl | rfl | rfl
      · simp only [List.getElem?_cons_succ, List.getElem?_cons_zero,
          Option.some.injEq] at hs
        subst hs
        have hpa : LoadData.parseField a = .error .valueError := by
          simp [LoadData.parseField, hne, hnone]
        exact ⟨.valueError, by simp [LoadData.parse_line, hc, LoadData.getCol, hpa]⟩
      · simp only [List.getElem?_cons_succ, List.getElem?_cons_zero,
          Option.some.injEq] at hs
        subst hs
        have hpb : LoadData.parseField b = .error .valueError := by
          simp [LoadData.parseField, hne, hnone]
        cases hpa : LoadData.parseField a with
        | error e =>
          exact ⟨e, by simp [LoadData.parse_line, hc, LoadData.getCol, hpa]⟩
        | ok v =>
          exact ⟨.valueError,
            by simp [LoadData.parse_line, hc, LoadData.getCol, hpa, hpb]⟩
      · simp only [List.getElem?_cons_succ, List.getElem?_cons_zero,
          Option.some.injEq] at hs
        subst hs
        have hpc : LoadData.parseField c = .error .valueError := by
          simp [LoadData.parseField, hne, hnone]
        cases hpa : LoadData.parseField a with
        | error e =>
          exact ⟨e, by simp [LoadData.parse_line, hc, LoadData.getCol, hpa]⟩
        | ok v =>
          cases hpb : LoadData.parseField b with
          | error e =>
            exact ⟨e, by simp [LoadData.parse_line, hc, LoadData.getCol, hpa, hpb]⟩
          | ok w =>
            exact ⟨.valueError,
              by simp [LoadData.parse_line, hc, LoadData.getCol, hpa, hpb, hpc]⟩

/-- Witness for C6: a 1-field line fails, and a 4-field line whose
second field is non-integer non-sentinel text fails. -/
theorem parse_line_malformed_errors_witness :
    (∃ e, LoadData.parse_line "S" 0 "abc" = .error e) ∧
    (∃ e, LoadData.parse_line "S" 0 "20200101\tfoo\t1\t2" = .error e) :=
  ⟨(parse_line_malformed_errors "S" 0 "abc").1 (by decide),
   (parse_line_malformed_errors "S" 0 "20200101\tfoo\t1\t2").2
     1 (by decide) "foo" (by decide) (by decide) (by decide)⟩

/-- C10: a line with more than 4 tab-separated fields is ingested
without error (given its first four fields are themselves well-formed):
the Observation is built from the first four fields and every field
beyond the fourth is silently discarded — the parser never reads past
column 3. -/
theorem parse_line_extra_fields_ignored (st : String) (ts : Nat)
    (line d a b c : String) (rest : List String) (va vb vc : Option Int)
    (h : pySplitTab (pyStrip line) = d :: a :: b :: c :: rest)
    (_hrest : rest ≠ [])
    (ha : LoadData.parseField a = .ok va)
    (hb : LoadData.parseField b = .ok vb)
    (hc : LoadData.parseField c = .ok vc) :
    LoadData.parse_line st ts line = .ok ⟨d, va, vb, vc, st, ts⟩ := by
  simp [LoadData.parse_line, h, LoadData.getCol, ha, hb, hc]

/-- Witness for C10: a 6-field line parses, using only the first four
fields. -/
theorem parse_line_extra_fields_ignored_witness :
    LoadData.parse_line "S" 3 "1\t2\t3\t4\t5\t6" =
      .ok ⟨"1", some 2, some 3, some 4, "S", 3⟩ :=
  parse_line_extra_fields_ignored "S" 3 "1\t2\t3\t4\t5\t6"
    "1" "2" "3" "4" ["5", "6"] (some 2) (some 3) (some 4)
    (by decide) (by simp) rfl rfl rfl

/-- C8 (amended): a malformed line inside one `.txt` file aborts that
file's ingestion atomically — nothing from that file is committed — and
also aborts the whole run: no sibling file after the failing one is
ingested, while files committed before it remain.  The final store
equals the store after loading only the preceding files, and the run
ends with an escaped parse error. -/
theorem load_aborts_after_bad_file
    (pre : List (String × List String)) (bad : String × List String)
    (post : List (String × List String))
    (store : List LoadData.WeatherRecord) (ts : Nat)
    (htxt : strEndsWith bad.1 ".txt" = true)
    (hbad : ∀ ts' : Nat, ∃ e,
      LoadData.parse_file (splitext_stem bad.1) ts' bad.2 = .error e) :
    (LoadData.load_data_from_files (pre ++ bad :: post) store ts).1 =
      (LoadData.load_data_from_files pre store ts).1 ∧
    ∃ e, (LoadData.load_data_from_files (pre ++ bad :: post) store ts).2.2 =
      some e := by
  induction pre generalizing store ts with
  | nil =>
    obtain ⟨bf, bl⟩ := bad
    obtain ⟨e, he⟩ := hbad ts
    simp only [List.nil_append, LoadData.load_data_from_files, htxt, if_true]
    rw [he]
    exact ⟨rfl, e, rfl⟩
  | cons f pre' ih =>
    obtain ⟨fn, fl⟩ := f
    cases hft : strEndsWith fn ".txt" with
    | false =>
      simp only [List.cons_append, LoadData.load_data_from_files, hft,
        Bool.false_eq_true, if_false]
      exact ih store ts
    | true =>
      cases hpf : LoadData.parse_file (splitext_stem fn) ts fl with
      | error e =>
        simp only [List.cons_append, LoadData.load_data_from_files, hft,
          if_true, hpf]
        exact ⟨trivial, e, rfl⟩
      | ok p =>
        obtain ⟨rs, ts'⟩ := p
        simp only [List.cons_append, LoadData.load_data_from_files, hft,
          if_true, hpf]
        exact ih (store ++ rs) ts'

/-- Witness for C8: with a good file before and after the bad one, the
committed store is exactly the one committed for the preceding file. -/
theorem load_aborts_after_bad_file_witness :
    (LoadData.load_data_from_files
        [("A.txt", ["20200101\t1\t2\t3"]), ("B.txt", ["bad"]),
         ("C.txt", ["20200101\t5\t6\t7"])] [] 0).1 =
      (LoadData.load_data_from_files [("A.txt", ["20200101\t1\t2\t3"])] [] 0).1 ∧
    ∃ e, (LoadData.load_data_from_files
        [("A.txt", ["20200101\t1\t2\t3"]), ("B.txt", ["bad"]),
         ("C.txt", ["20200101\t5\t6\t7"])] [] 0).2.2 = some e :=
  load_aborts_after_bad_file
    [("A.txt", ["20200101\t1\t2\t3"])] ("B.txt", ["bad"])
    [("C.txt", ["20200101\t5\t6\t7"])] [] 0
    (by decide) (fun ts' => ⟨.indexError, rfl⟩)

/-- Counterexample for C8 as stated: directory [A.txt, B.txt, C.txt]
where B.txt holds a malformed line.  The claim says C.txt (a sibling of
B.txt) is still ingested; the code commits only A.txt's batch — the
final store holds A's record alone and no record of station C exists. -/
theorem load_bad_file_skips_siblings_cex :
    (LoadData.load_data_from_files
        [("A.txt", ["20200101\t1\t2\t3"]), ("B.txt", ["bad"]),
         ("C.txt", ["20200101\t5\t6\t7"])] [] 0).1 =
      [⟨"20200101", some 1, some 2, some 3, "A", 0⟩] ∧
    ∀ r ∈ (LoadData.load_data_from_files
        [("A.txt", ["20200101\t1\t2\t3"]), ("B.txt", ["bad"]),
         ("C.txt", ["20200101\t5\t6\t7"])] [] 0).1,
      r.weather_station_id ≠ "C" := by
  decide

lemma sum_map_div10 (vs : List Int) :
    (vs.map (fun x : Int => (x : ℚ) / 10)).sum = (vs.map (fun x : Int => (x : ℚ))).sum / 10 := by
  induction vs with
  | nil => simp
  | cons x t ih =>
    rw [List.map_cons, List.map_cons, List.sum_cons, List.sum_cons, ih, add_div]

lemma sum_map_div100 (vs : List Int) :
    (vs.map (fun x : Int => (x : ℚ) / 100)).sum = (vs.map (fun x : Int => (x : ℚ))).sum / 100 := by
  induction vs with
  | nil => simp
  | cons x t ih =>
    rw [List.map_cons, List.map_cons, List.sum_cons, List.sum_cons, ih, add_div]

/-- The query's average-of-quotients equals the spec's
quotient-of-average. -/
lemma aggAvg_eq_specAvg (vs : List Int) :
    CalculateStatistics.aggAvg vs = CalculateStatistics.specAvg vs := by
  rw [CalculateStatistics.aggAvg, CalculateStatistics.specAvg]
  by_cases h : vs = []
  · simp [h]
  · simp only [h, if_false]
    congr 1
    rw [sum_map_div10, div_div, div_div, mul_comm]

/-- The query's sum-of-quotients equals the spec's quotient-of-sum. -/
lemma aggSum_eq_specSum (vs : List Int) :
    CalculateStatistics.aggSum vs = CalculateStatistics.specSum vs := by
  rw [CalculateStatistics.aggSum, CalculateStatistics.specSum]
  by_cases h : vs = []
  · simp [h]
  · simp only [h, if_false]
    congr 1
    rw [sum_map_div100]

/-- Structure of a successful `buildStats` run over a key list: one row
per key in order, with the aggregate values of that key's group. -/
lemma buildStats_spec (store : List LoadData.WeatherRecord) :
    ∀ (ks : List (String × String)) (l : List CalculateStatistics.StatRow),
    CalculateStatistics.buildStats store ks = some l →
    l.length = ks.length ∧
    (∀ k ∈ ks, ∀ y : Int, pythonInt? k.1 = some y →
      ∃ r ∈ l, r.year = y ∧ r.weather_station_id = k.2 ∧
        r.avg_max_temp = CalculateStatistics.aggAvg
          (CalculateStatistics.maxVals store k) ∧
        r.avg_min_temp = CalculateStatistics.aggAvg
          (CalculateStatistics.minVals store k) ∧
        r.total_precipitation = CalculateStatistics.aggSum
          (CalculateStatistics.precVals store k)) ∧
    (∀ (y : Int) (stn : String),
      l.countP (fun r => decide (r.year = y) &&
          decide (r.weather_station_id = stn)) =
        ks.countP (fun k => decide (pythonInt? k.1 = some y) &&
          decide (k.2 = stn))) := by
  intro ks
  induction ks with
  | nil =>
    intro l hl
    rw [CalculateStatistics.buildStats] at hl
    obtain rfl : ([] : List CalculateStatistics.StatRow) = l :=
      Option.some.injEq _ _ ▸ hl
    refine ⟨rfl, fun k hk => absurd hk (List.not_mem_nil k), fun y stn => rfl⟩
  | cons k ks ih =>
    intro l hl
    rw [CalculateStatistics.buildStats] at hl
    cases hy' : pythonInt? k.1 with
    | none => rw [hy'] at hl; cases hl
    | some y' =>
      rw [hy'] at hl
      cases hb : CalculateStatistics.buildStats store ks with
      | none => rw [hb] at hl; cases hl
      | some rest =>
        rw [hb] at hl
        obtain rfl : _ = l := Option.some.injEq _ _ ▸ hl
        obtain ⟨ihlen, ihmem, ihcount⟩ := ih rest hb
        refine ⟨by simp [ihlen], ?_, ?_⟩
        · intro k' hk' y hy
          rcases List.mem_cons.mp hk' with rfl | hk2
          · rw [hy'] at hy
            obtain rfl : y' = y := Option.some.injEq _ _ ▸ hy
            exact ⟨_, List.mem_cons_self _ _, rfl, rfl, rfl, rfl, rfl⟩
          · obtain ⟨r, hrmem, hr⟩ := ihmem k' hk2 y hy
            exact ⟨r, List.mem_cons_of_mem _ hrmem, hr⟩
        · intro y stn
          rw [List.countP_cons, List.countP_cons, ihcount y stn]
          congr 1
          have : (pythonInt? k.1 = some y) ↔ (y' = y) := by
            rw [hy']
            exact ⟨fun h => Option.some.injEq _ _ ▸ h, fun h => by rw [h]⟩
          simp [this]

/-- C2: for every (year, station) group of stored Observations — the
year being the first 4 characters of the date, here assumed to parse —
one successful aggregation run emits exactly one YearlyStat row per
group, whose avg_max_temp is round(mean of the non-null max_temp values
/ 10.0, 2), avg_min_temp likewise from min_temp, and
total_precipitation is round(sum of the non-null precipitation values /
100.0, 2); null fields are excluded from the aggregates' inputs and an
all-null field yields a null aggregate rather than a division by
zero. -/
theorem calculate_statistics_matches_spec
    (store : List LoadData.WeatherRecord)
    (l : List CalculateStatistics.StatRow) (d4 stn : String) (y : Int)
    (hl : CalculateStatistics.calculate_statistics store = some l)
    (hk : (d4, stn) ∈ CalculateStatistics.groupKeys store)
    (hy : pythonInt? d4 = some y) :
    (∃ r ∈ l, r.year = y ∧ r.weather_station_id = stn ∧
      r.avg_max_temp = CalculateStatistics.specAvg
        (CalculateStatistics.maxVals store (d4, stn)) ∧
      r.avg_min_temp = CalculateStatistics.specAvg
        (CalculateStatistics.minVals store (d4, stn)) ∧
      r.total_precipitation = CalculateStatistics.specSum
        (CalculateStatistics.precVals store (d4, stn))) ∧
    l.length = (CalculateStatistics.groupKeys store).length ∧
    l.countP (fun r => decide (r.year = y) &&
        decide (r.weather_station_id = stn)) =
      (CalculateStatistics.groupKeys store).countP
        (fun k => decide (pythonInt? k.1 = some y) && decide (k.2 = stn)) := by
  rw [CalculateStatistics.calculate_statistics] at hl
  obtain ⟨hlen, hmem, hcount⟩ := buildStats_spec store _ l hl
  obtain ⟨r, hrmem, hr1, hr2, hr3, hr4, hr5⟩ := hmem (d4, stn) hk y hy
  rw [aggAvg_eq_specAvg] at hr3 hr4
  rw [aggSum_eq_specSum] at hr5
  exact ⟨⟨r, hrmem, hr1, hr2, hr3, hr4, hr5⟩, hlen, hcount y stn⟩

/-- Witness for C2: one observation (station S, date 20200101, max 100,
min -50, precipitation 0) yields one YearlyStat with avg_max_temp 10.0,
avg_min_temp -5.0, total_precipitation 0.0. -/
theorem calculate_statistics_matches_spec_witness :
    (∃ r ∈ ([⟨2020, "S", some 10, some (-5), some 0⟩] :
        List CalculateStatistics.StatRow),
      r.year = 2020 ∧ r.weather_station_id = "S" ∧
      r.avg_max_temp = CalculateStatistics.specAvg
        (CalculateStatistics.maxVals
          [⟨"20200101", some 100, some (-50), some 0, "S", 0⟩] ("2020", "S")) ∧
      r.avg_min_temp = CalculateStatistics.specAvg
        (CalculateStatistics.minVals
          [⟨"20200101", some 100, some (-50), some 0, "S", 0⟩] ("2020", "S")) ∧
      r.total_precipitation = CalculateStatistics.specSum
        (CalculateStatistics.precVals
          [⟨"20200101", some 100, some (-50), some 0, "S", 0⟩] ("2020", "S"))) ∧
    ([⟨2020, "S", some 10, some (-5), some 0⟩] :
        List CalculateStatistics.StatRow).length =
      (CalculateStatistics.groupKeys
        [⟨"20200101", some 100, some (-50), some 0, "S", 0⟩]).length ∧
    ([⟨2020, "S", some 10, some (-5), some 0⟩] :
        List CalculateStatistics.StatRow).countP
        (fun r => decide (r.year = 2020) &&
          decide (r.weather_station_id = "S")) =
      (CalculateStatistics.groupKeys
        [⟨"20200101", some 100, some (-50), some 0, "S", 0⟩]).countP
        (fun k => decide (pythonInt? k.1 = some 2020) &&
          decide (k.2 = "S")) := by
  apply calculate_statistics_matches_spec
  · have hkeys : CalculateStatistics.groupKeys
        [⟨"20200101", some 100, some (-50), some 0, "S", 0⟩] =
        [("2020", "S")] := by decide
    have hmx : CalculateStatistics.maxVals
        [⟨"20200101", some 100, some (-50), some 0, "S", 0⟩] ("2020", "S") =
        [100] := by decide
    have hmn : CalculateStatistics.minVals
        [⟨"20200101", some 100, some (-50), some 0, "S", 0⟩] ("2020", "S") =
        [-50] := by decide
    have hpc : CalculateStatistics.precVals
        [⟨"20200101", some 100, some (-50), some 0, "S", 0⟩] ("2020", "S") =
        [0] := by decide
    have h2020 : pythonInt? "2020" = some 2020 := by decide
    have havg1 : CalculateStatistics.aggAvg [100] = some 10 := by
      norm_num [CalculateStatistics.aggAvg, CalculateStatistics.round2, round_eq]
    have havg2 : CalculateStatistics.aggAvg [-50] = some (-5) := by
      norm_num [CalculateStatistics.aggAvg, CalculateStatistics.round2, round_eq]
    have hsum : CalculateStatistics.aggSum [0] = some 0 := by
      norm_num [CalculateStatistics.aggSum, CalculateStatistics.round2, round_eq]
    rw [CalculateStatistics.calculate_statistics, hkeys,
      CalculateStatistics.buildStats, h2020, CalculateStatistics.buildStats,
      hmx, hmn, hpc, havg1, havg2, hsum]
  · decide
  · decide
